import Mathlib

/-!
Verification development for the csp Symphony adapter.

The definitions below are a shallow embedding of the Python sources:
  - `csp_adapter_symphony/adapter_config.py` (the `SymphonyRoomMapper` class),
  - `csp_adapter_symphony/adapter.py` (`_get_user_mentions`,
    `_handle_message_sent`, `_handle_elements_action`,
    `send_symphony_message_async`),
  - `csp_adapter_symphony/message.py` (the `SymphonyMessage` struct fields).

Python dictionaries with string keys are embedded as functions
`String -> Option String`; `None` becomes `Option.none`; code that can raise
an uncaught exception returns `Except String`.  JSON payload text is embedded
by the outcome of `json.loads`: the type `Option PyJson`, where `none` stands
for a `json.JSONDecodeError` and `some j` for the parsed value.  Python
truthiness on optional strings (`if cached:`) is `pyTruthyOptStr`.
-/

/-- The result of `json.loads`: Python values produced by the json module.
Numbers are embedded as integers (the mention ids exercised by the adapter
are integral); `obj` keeps the key insertion order of the parsed dict and,
as `json.loads` collapses duplicate keys, its keys are assumed distinct. -/
inductive PyJson where
  | null : PyJson
  | bool : Bool → PyJson
  | num : Int → PyJson
  | str : String → PyJson
  | arr : List PyJson → PyJson
  | obj : List (String × PyJson) → PyJson

mutual

/-- Python `repr` of a json-module value (used by `str` on containers). -/
def pyRepr : PyJson → String
  | PyJson.null => "None"
  | PyJson.bool true => "True"
  | PyJson.bool false => "False"
  | PyJson.num n => toString n
  | PyJson.str s => "\x27" ++ s ++ "\x27"
  | PyJson.arr l => "[" ++ String.intercalate ", " (pyReprList l) ++ "]"
  | PyJson.obj l => "\x7b" ++ String.intercalate ", " (pyReprObj l) ++ "\x7d"

/-- Helper of `pyRepr` for array elements. -/
def pyReprList : List PyJson → List String
  | [] => []
  | x :: xs => pyRepr x :: pyReprList xs

/-- Helper of `pyRepr` for object entries. -/
def pyReprObj : List (String × PyJson) → List String
  | [] => []
  | (k, v) :: xs => ("\x27" ++ k ++ "\x27: " ++ pyRepr v) :: pyReprObj xs

end

/-- Python `str(...)` applied to a json-module value. -/
def pyStr : PyJson → String
  | PyJson.str s => s
  | j => pyRepr j

/-- Lookup in a parsed dict: Python `d.get(k)` / `k in d` (keys distinct). -/
def lookupDict (kvs : List (String × PyJson)) (k : String) : Option PyJson :=
  match kvs.find? (fun kv => kv.1 == k) with
  | some kv => some kv.2
  | none => none

/-- The declared type that marks an entry as a user mention
(`"com.symphony.user.mention"` in `_get_user_mentions`). -/
def mentionTypeName : String := "com.symphony.user.mention"

/-- Embeds `value.get("type") == "com.symphony.user.mention"` for a value that
`isinstance(value, dict)` already accepted. -/
def isMentionEntry (kvs : List (String × PyJson)) : Bool :=
  match lookupDict kvs "type" with
  | some (PyJson.str t) => t == mentionTypeName
  | _ => false

/-- Embeds the inner loop `for id_item in id_list: ...` of
`_get_user_mentions`.  Returns `none` when the iteration itself raises
`TypeError` (the value bound to `"id"` is not iterable); that exception is in
the caught tuple of the source.  Iterating a string yields characters and
iterating a dict yields its keys, neither of which is a dict, so those cases
collect nothing. -/
def mentionIdsOf (idVal : PyJson) : Option (List String) :=
  match idVal with
  | PyJson.arr items =>
    some (items.filterMap fun item =>
      match item with
      | PyJson.obj kvs =>
        match lookupDict kvs "value" with
        | some v => some (pyStr v)
        | none => none
      | _ => none)
  | PyJson.str _ => some []
  | PyJson.obj _ => some []
  | _ => none

/-- Embeds the outer loop `for value in payload_data.values():` of
`_get_user_mentions`, applied to the list of dict values in order.  A
`TypeError` from a non-iterable `"id"` value is caught by the `except` clause
of the source, which then returns the mentions accumulated so far. -/
def collectMentions : List PyJson → List String
  | [] => []
  | v :: vs =>
    match v with
    | PyJson.obj kvs =>
      if isMentionEntry kvs then
        match mentionIdsOf ((lookupDict kvs "id").getD (PyJson.arr [])) with
        | some ids => ids ++ collectMentions vs
        | none => []
      else collectMentions vs
    | _ => collectMentions vs

/-- Embeds `_get_user_mentions(data)` as a function of the outcome of
`json.loads(data or "\x7b\x7d")`: `none` is a `json.JSONDecodeError` (caught,
yielding `[]`); absent or empty input text parses as the empty object
`some (PyJson.obj [])`.  When the parsed payload is not a dict, the call
`payload_data.values()` raises `AttributeError`, which is NOT in the caught
tuple `(json.JSONDecodeError, KeyError, TypeError)` and so propagates: that
path is `Except.error`. -/
def getUserMentions (payload : Option PyJson) : Except String (List String) :=
  match payload with
  | none => Except.ok []
  | some (PyJson.obj kvs) => Except.ok (collectMentions (kvs.map Prod.snd))
  | some _ => Except.error "AttributeError"

/-! ## The room directory (`SymphonyRoomMapper` state) -/

/-- The two dictionaries `_name_to_id` and `_id_to_name` of
`SymphonyRoomMapper`. -/
structure Directory where
  nameToId : String → Option String
  idToName : String → Option String

/-- The state built by `SymphonyRoomMapper.__init__`: both dicts empty. -/
def emptyDirectory : Directory :=
  { nameToId := fun _ => none, idToName := fun _ => none }

/-- Python dict assignment `m[k] = v`. -/
def updateMap (m : String → Option String) (k v : String) : String → Option String :=
  fun q => if q = k then some v else m q

/-- Embeds `SymphonyRoomMapper.get_room_id`: cached id if the name is a key
of `_name_to_id`; otherwise the name itself when it looks like a stream id
(`len(room_name) > 20 and " " not in room_name`); otherwise `None`.  The
source performs no write and no collaborator call on any path, which the
read-only type of this embedding reflects. -/
def getRoomId (d : Directory) (roomName : String) : Option String :=
  match d.nameToId roomName with
  | some sid => some sid
  | none =>
    if 20 < roomName.length ∧ roomName.toList.contains ' ' = false then
      some roomName
    else
      none

/-- Embeds `SymphonyRoomMapper.get_room_name`: a plain cache read. -/
def getRoomName (d : Directory) (roomId : String) : Option String :=
  d.idToName roomId

/-- Embeds `SymphonyRoomMapper.set_im_id`: writes `_id_to_name[stream_id]`
and `_name_to_id[user_identifier]` under the lock. -/
def setImId (d : Directory) (userIdentifier streamId : String) : Directory :=
  { idToName := updateMap d.idToName streamId userIdentifier
    nameToId := updateMap d.nameToId userIdentifier streamId }

/-- Embeds `SymphonyRoomMapper.register_room`: writes
`_name_to_id[room_name]` and `_id_to_name[room_id]` under the lock. -/
def registerRoom (d : Directory) (roomName roomId : String) : Directory :=
  { nameToId := updateMap d.nameToId roomName roomId
    idToName := updateMap d.idToName roomId roomName }

/-- Python truthiness of an optional string (`if cached:`): true exactly for
a present, non-empty string. -/
def pyTruthyOptStr : Option String → Bool
  | none => false
  | some s => s != ""

/-- Both maps are inverse to each other (the "in sync" invariant). -/
def inSync (d : Directory) : Prop :=
  ∀ n i, d.nameToId n = some i ↔ d.idToName i = some n

/-- A sequence of registering calls (`register_room` / `set_im_id` both
insert the pair into the two directions). -/
def applyRegs (d : Directory) (l : List (String × String)) : Directory :=
  l.foldl (fun acc p => registerRoom acc p.1 p.2) d

/-! ## Asynchronous resolution (`get_room_id_async` / `get_room_name_async`)

The injected BDK collaborator is embedded as the outcome it delivers:
`none` models `self._stream_service is None`; `some (Except.error e)` models
the collaborator raising an exception `e` (caught by the source, logged, and
swallowed); `some (Except.ok r)` models a normal return of `r`. -/

/-- The `room_attributes` of a BDK search result (`name` is optional). -/
structure V3RoomAttributes where
  name : Option String

/-- The `room_system_info` of a BDK search result. -/
structure V3RoomSystemInfo where
  id : String

/-- One room of a BDK `search_rooms` result. -/
structure V3RoomSearchRoom where
  roomAttributes : Option V3RoomAttributes
  roomSystemInfo : Option V3RoomSystemInfo

/-- A BDK `search_rooms` result (`rooms` is optional). -/
structure V3RoomSearchResults where
  rooms : Option (List V3RoomSearchRoom)

/-- A BDK `get_room_info` result (only the field the source reads). -/
structure V3RoomDetail where
  roomAttributes : Option V3RoomAttributes

/-- The acceptance test of the search loop:
`room_attrs and room_info and room_attrs.name == room_name`.  A missing
attribute object, a missing system info object, or a name differing from the
query (including an absent name, since `None == room_name` is false) all
reject the room. -/
def roomMatches (room : V3RoomSearchRoom) (roomName : String) : Bool :=
  match room.roomAttributes, room.roomSystemInfo with
  | some attrs, some _ => attrs.name == some roomName
  | _, _ => false

/-- Embeds the `for room in results.rooms:` loop of `get_room_id_async`: the
first room passing `roomMatches` is registered into both cache directions
under the lock and its id returned; with no match the loop falls through to
`return None` with the cache untouched. -/
def searchLoop (d : Directory) (roomName : String) :
    List V3RoomSearchRoom → Option String × Directory
  | [] => (none, d)
  | room :: rest =>
    match room.roomAttributes, room.roomSystemInfo with
    | some attrs, some info =>
      if attrs.name == some roomName then
        (some info.id, registerRoom d roomName info.id)
      else
        searchLoop d roomName rest
    | _, _ => searchLoop d roomName rest

/-- Embeds `SymphonyRoomMapper.get_room_id_async`.  The cache (with the
id-shape heuristic of `get_room_id`) is consulted first; on a truthy hit the
cached value is returned.  Otherwise the search collaborator runs: an absent
service, a raised exception (caught and logged by the source), a falsy result
object, or a falsy room list all yield `None` with the cache unchanged. -/
def getRoomIdAsync (d : Directory) (roomName : String)
    (svc : Option (Except String (Option V3RoomSearchResults))) :
    Option String × Directory :=
  let cached := getRoomId d roomName
  if pyTruthyOptStr cached = true then
    (cached, d)
  else
    match svc with
    | none => (none, d)
    | some (Except.error _) => (none, d)
    | some (Except.ok res?) =>
      match res? with
      | none => (none, d)
      | some res =>
        match res.rooms with
        | none => (none, d)
        | some rooms =>
          if rooms.isEmpty then (none, d)
          else searchLoop d roomName rooms

/-- Embeds `SymphonyRoomMapper.get_room_name_async`.  On a truthy cache hit
the cached name is returned; otherwise the `get_room_info` collaborator runs:
an absent service, a raised exception (caught and logged), or a falsy
`room_info` / `room_attributes` yield `None` with the cache unchanged; a
present name is registered into both directions and returned.  (When the
returned `room_attributes.name` is `None`, the Python source would key the
cache by `None`, which the string-keyed model cannot represent; no claim
exercises that corner and it is embedded as a miss.) -/
def getRoomNameAsync (d : Directory) (roomId : String)
    (svc : Option (Except String (Option V3RoomDetail))) :
    Option String × Directory :=
  let cached := getRoomName d roomId
  if pyTruthyOptStr cached = true then
    (cached, d)
  else
    match svc with
    | none => (none, d)
    | some (Except.error _) => (none, d)
    | some (Except.ok info?) =>
      match info? with
      | none => (none, d)
      | some info =>
        match info.roomAttributes with
        | none => (none, d)
        | some attrs =>
          match attrs.name with
          | some nm => (some nm, registerRoom d nm roomId)
          | none => (none, d)

/-! ## Inbound events and their translation -/

/-- The fields of a BDK `V4User` read by the handlers.  The BDK marks them
optional but the source reads them unguarded once the user object is present;
they are embedded as present. -/
structure V4User where
  displayName : String
  email : String
  userId : Nat

/-- A BDK `V4Initiator` (its `user` is optional). -/
structure V4Initiator where
  user : Option V4User

/-- A BDK `V4Stream` (the two fields the handlers read). -/
structure V4Stream where
  streamId : String
  streamType : String

/-- A BDK `V4Message`: its optional `stream`, its `data` field embedded as
the outcome of `json.loads(data or "\x7b\x7d")` (see `getUserMentions`; the
absent-or-empty text case is `some (PyJson.obj [])`), and its optional
`message` body. -/
structure V4Message where
  stream : Option V4Stream
  data : Option PyJson
  message : Option String

/-- A BDK `V4MessageSent` event (its `message` is optional). -/
structure V4MessageSent where
  message : Option V4Message

/-- A BDK `V4SymphonyElementsAction` event. -/
structure V4SymphonyElementsAction where
  stream : Option V4Stream
  formId : Option String
  formValues : Option (List (String × String))

/-- The `SymphonyMessage` csp struct of `message.py` (field defaults `""`,
`[]`, as in the source). -/
structure SymphonyMessage where
  user : String
  userEmail : String
  userId : String
  tags : List String
  room : String
  msg : String
  formId : String
  formValues : List (String × String)
  streamId : String

/-- Embeds `_handle_message_sent`.  Returns the produced message (or `None`)
together with the room-mapper state after the call; the `Except.error` case
is the uncaught `AttributeError` that `_get_user_mentions` raises on a
non-dict payload (see `getUserMentions`). -/
def handleMessageSent (initiator : Option V4Initiator) (event : V4MessageSent)
    (roomIds : List String) (d : Directory) :
    Except String (Option SymphonyMessage × Directory) :=
  match event.message with
  | none => Except.ok (none, d)
  | some message =>
    match message.stream with
    | none => Except.ok (none, d)
    | some stream =>
      if roomIds ≠ [] ∧ stream.streamId ∉ roomIds then
        Except.ok (none, d)
      else
        let user := match initiator with
          | some ini => ini.user
          | none => none
        let userName := match user with
          | some u => u.displayName
          | none => "USER_ERROR"
        let userEmail := match user with
          | some u => u.email
          | none => "USER_ERROR"
        let userId := match user with
          | some u => toString u.userId
          | none => "USER_ERROR"
        match getUserMentions message.data with
        | Except.error e => Except.error e
        | Except.ok userMentions =>
          if stream.streamType = "ROOM" then
            let roomName := match getRoomName d stream.streamId with
              | some nm => if nm = "" then stream.streamId else nm
              | none => stream.streamId
            Except.ok (some
              { user := userName, userEmail := userEmail, userId := userId
                tags := userMentions, room := roomName
                msg := message.message.getD "", formId := "", formValues := []
                streamId := stream.streamId }, d)
          else if stream.streamType = "IM" then
            let d2 := setImId (setImId d userName stream.streamId) userId stream.streamId
            Except.ok (some
              { user := userName, userEmail := userEmail, userId := userId
                tags := userMentions, room := "IM"
                msg := message.message.getD "", formId := "", formValues := []
                streamId := stream.streamId }, d2)
          else
            Except.ok (some
              { user := userName, userEmail := userEmail, userId := userId
                tags := userMentions, room := stream.streamId
                msg := message.message.getD "", formId := "", formValues := []
                streamId := stream.streamId }, d)

/-- Embeds `_handle_elements_action` (no mention extraction, so no uncaught
exception path; `msg` keeps the struct default `""`). -/
def handleElementsAction (initiator : Option V4Initiator)
    (event : V4SymphonyElementsAction) (roomIds : List String) (d : Directory) :
    Option SymphonyMessage × Directory :=
  match event.stream with
  | none => (none, d)
  | some stream =>
    if roomIds ≠ [] ∧ stream.streamId ∉ roomIds then
      (none, d)
    else
      let user := match initiator with
        | some ini => ini.user
        | none => none
      let userName := match user with
        | some u => u.displayName
        | none => "USER_ERROR"
      let userEmail := match user with
        | some u => u.email
        | none => "USER_ERROR"
      let userId := match user with
        | some u => toString u.userId
        | none => "USER_ERROR"
      if stream.streamType = "ROOM" then
        let roomName := match getRoomName d stream.streamId with
          | some nm => if nm = "" then stream.streamId else nm
          | none => stream.streamId
        (some
          { user := userName, userEmail := userEmail, userId := userId
            tags := [], room := roomName, msg := ""
            formId := event.formId.getD "", formValues := event.formValues.getD []
            streamId := stream.streamId }, d)
      else if stream.streamType = "IM" then
        let d2 := setImId (setImId d userName stream.streamId) userId stream.streamId
        (some
          { user := userName, userEmail := userEmail, userId := userId
            tags := [], room := "IM", msg := ""
            formId := event.formId.getD "", formValues := event.formValues.getD []
            streamId := stream.streamId }, d2)
      else
        (some
          { user := userName, userEmail := userEmail, userId := userId
            tags := [], room := stream.streamId, msg := ""
            formId := event.formId.getD "", formValues := event.formValues.getD []
            streamId := stream.streamId }, d)

/-! ## Outbound body wrapping -/

/-- Python `str.strip()`: drop whitespace from both ends. -/
def pyStrip (s : String) : String :=
  String.mk (((s.toList.dropWhile Char.isWhitespace).reverse.dropWhile
    Char.isWhitespace).reverse)

/-- Python `s.startswith(pat)` over the character lists (pattern first). -/
def startsWithChars : List Char → List Char → Bool
  | [], _ => true
  | _ :: _, [] => false
  | p :: ps, c :: cs => p == c && startsWithChars ps cs

/-- Embeds the body preparation of `send_symphony_message_async`:
`if not content.strip().startswith("<messageML>"): content =
f"<messageML>...</messageML>"`. -/
def sendContent (msg : String) : String :=
  if startsWithChars "<messageML>".toList (pyStrip msg).toList = true then msg
  else "<messageML>" ++ msg ++ "</messageML>"

/-! ## Claims -/

/-- Claim C4 (failing evaluation): the empty payload text and undecodable
text are tolerated by `_get_user_mentions` (the decode error is caught), but
well-formed JSON whose top level is not an object — here the array `[1, 2]` —
reaches `payload_data.values()` and raises an uncaught `AttributeError`
instead of returning the empty mention list the claim promises. -/
theorem getUserMentions_wrong_shape_c4 :
    getUserMentions (some (PyJson.obj [])) = Except.ok []
    ∧ getUserMentions none = Except.ok []
    ∧ getUserMentions (some (PyJson.arr [PyJson.num 1, PyJson.num 2]))
        = Except.error "AttributeError" :=
  ⟨rfl, rfl, rfl⟩

/-- Claim C9: the outbound body handed to `send_message` carries the
`<messageML>` envelope exactly once — a body whose stripped form already
starts with the envelope is passed through unchanged, and any other body is
wrapped exactly once. -/
theorem sendContent_wrap_once_c9 (msg : String) :
    (startsWithChars "<messageML>".toList (pyStrip msg).toList = true →
        sendContent msg = msg)
    ∧ (startsWithChars "<messageML>".toList (pyStrip msg).toList = false →
        sendContent msg = "<messageML>" ++ msg ++ "</messageML>") := by
  constructor
  · intro h
    simp only [sendContent]
    rw [if_pos h]
  · intro h
    simp only [sendContent]
    rw [if_neg (by rw [h]; simp)]

/-- Witness for C9 at the concrete bodies `"hello"` (gets wrapped once) and
`"<messageML>hi</messageML>"` (passed through unchanged). -/
theorem sendContent_wrap_once_c9_witness :
    sendContent "hello" = "<messageML>hello</messageML>"
    ∧ sendContent "<messageML>hi</messageML>" = "<messageML>hi</messageML>" :=
  ⟨(sendContent_wrap_once_c9 "hello").2 (by decide),
   (sendContent_wrap_once_c9 "<messageML>hi</messageML>").1 (by decide)⟩

/-- Written from the words of the spec for comparison with `getRoomId`: the
treat-as-id heuristic there asks for a name "containing no whitespace",
whereas the source only tests for the space character. -/
def getRoomIdSpecWhitespace (d : Directory) (roomName : String) : Option String :=
  match d.nameToId roomName with
  | some sid => some sid
  | none =>
    if 20 < roomName.length ∧ ∀ c ∈ roomName.toList, c.isWhitespace = false then
      some roomName
    else
      none

/-- Counterexample to claim C5 as stated: a 24-character unregistered name
containing a tab (whitespace, but not a space) is returned unchanged by the
source `get_room_id`, while the claim ("contains no whitespace ... otherwise
it returns not-found") demands not-found for it. -/
theorem getRoomId_whitespace_counterexample_c5 :
    getRoomId emptyDirectory "aaaaaaaaaaaaaaaaaaaaa\tbb"
      = some "aaaaaaaaaaaaaaaaaaaaa\tbb"
    ∧ getRoomIdSpecWhitespace emptyDirectory "aaaaaaaaaaaaaaaaaaaaa\tbb" = none := by
  constructor
  · decide
  · decide

/-- Claim C5 (amended): `get_room_id` is a pure cache-or-shape lookup — it
returns the cached id when the name is registered; otherwise, when the name
is longer than 20 characters and contains no space character `' '`, it
returns the name itself without caching; otherwise it returns not-found.  In
particular every 24-or-more-character whitespace-free unregistered string
(whitespace-free implies space-free) resolves to itself. -/
theorem getRoomId_cache_or_shape_c5 (d : Directory) (name : String) :
    (∀ i, d.nameToId name = some i → getRoomId d name = some i)
    ∧ (d.nameToId name = none → 20 < name.length →
        name.toList.contains ' ' = false → getRoomId d name = some name)
    ∧ (d.nameToId name = none →
        ¬(20 < name.length ∧ name.toList.contains ' ' = false) →
        getRoomId d name = none)
    ∧ (d.nameToId name = none → 24 ≤ name.length →
        (∀ c ∈ name.toList, c.isWhitespace = false) →
        getRoomId d name = some name) := by
  refine ⟨?_, ?_, ?_, ?_⟩
  · intro i h
    simp [getRoomId, h]
  · intro h hlen hsp
    simp only [getRoomId, h]
    rw [if_pos ⟨hlen, hsp⟩]
  · intro h hshape
    simp only [getRoomId, h]
    rw [if_neg hshape]
  · intro h hlen hws
    have hsp : name.toList.contains ' ' = false := by
      by_cases hm : ' ' ∈ name.toList
      · exact absurd (hws ' ' hm) (by simp)
      · simpa using hm
    have hlen' : 20 < name.length := by omega
    simp only [getRoomId, h]
    rw [if_pos ⟨hlen', hsp⟩]

/-- Witness for C5 (amended) at a 24-character space-free unregistered name
and at a short name. -/
theorem getRoomId_cache_or_shape_c5_witness :
    getRoomId emptyDirectory "roomIdLikeAAAABBBBCCCCDD" = some "roomIdLikeAAAABBBBCCCCDD"
    ∧ getRoomId emptyDirectory "My Room" = none :=
  ⟨(getRoomId_cache_or_shape_c5 emptyDirectory "roomIdLikeAAAABBBBCCCCDD").2.2.2
      rfl (by decide) (by decide),
   (getRoomId_cache_or_shape_c5 emptyDirectory "My Room").2.2.1 rfl (by decide)⟩

/-- Claim C7: an exception raised by the injected collaborator during
`get_room_id_async` or `get_room_name_async` is caught (logged) and the call
returns not-found; no exception reaches the caller and the cache is left
exactly as it was — on the error path, and in fact in every case, the state
coming out of the call equals the state going in. -/
theorem asyncLookup_error_swallowed_c7 (d : Directory) (name rid e : String)
    (hm1 : pyTruthyOptStr (getRoomId d name) = false)
    (hm2 : pyTruthyOptStr (getRoomName d rid) = false) :
    getRoomIdAsync d name (some (Except.error e)) = (none, d)
    ∧ getRoomNameAsync d rid (some (Except.error e)) = (none, d)
    ∧ (∀ (d2 : Directory) (n2 e2 : String),
        (getRoomIdAsync d2 n2 (some (Except.error e2))).2 = d2
        ∧ (getRoomNameAsync d2 n2 (some (Except.error e2))).2 = d2) := by
  refine ⟨?_, ?_, ?_⟩
  · simp [getRoomIdAsync, hm1]
  · simp [getRoomNameAsync, hm2]
  · intro d2 n2 e2
    constructor
    · by_cases hb : pyTruthyOptStr (getRoomId d2 n2) = true
      · simp [getRoomIdAsync, hb]
      · simp [getRoomIdAsync, hb]
    · by_cases hb : pyTruthyOptStr (getRoomName d2 n2) = true
      · simp [getRoomNameAsync, hb]
      · simp [getRoomNameAsync, hb]

/-- Witness for C7 with a concrete failing collaborator call on an empty
cache. -/
theorem asyncLookup_error_swallowed_c7_witness :
    getRoomIdAsync emptyDirectory "Foo" (some (Except.error "boom"))
      = (none, emptyDirectory)
    ∧ getRoomNameAsync emptyDirectory "X" (some (Except.error "boom"))
      = (none, emptyDirectory) :=
  ⟨(asyncLookup_error_swallowed_c7 emptyDirectory "Foo" "X" "boom"
      (by decide) (by decide)).1,
   (asyncLookup_error_swallowed_c7 emptyDirectory "Foo" "X" "boom"
      (by decide) (by decide)).2.1⟩

/-- Helper for C1: a sequence of registering calls whose pairs are fresh for
the current state and whose names and ids are pairwise distinct keeps the two
maps in sync. -/
theorem applyRegs_inSync (l : List (String × String)) :
    ∀ d : Directory, inSync d →
      (∀ p ∈ l, d.nameToId p.1 = none ∧ d.idToName p.2 = none) →
      (l.map Prod.fst).Nodup → (l.map Prod.snd).Nodup →
      inSync (applyRegs d l) := by
  induction l with
  | nil =>
    intro d hs _ _ _
    exact hs
  | cons p t ih =>
    intro d hs hf hn1 hn2
    obtain ⟨hfn, hfi⟩ := hf p (List.mem_cons_self p t)
    rw [List.map_cons, List.nodup_cons] at hn1 hn2
    have hsync2 : inSync (registerRoom d p.1 p.2) := by
      intro n i
      show (if n = p.1 then some p.2 else d.nameToId n) = some i
        ↔ (if i = p.2 then some p.1 else d.idToName i) = some n
      by_cases hn : n = p.1 <;> by_cases hi : i = p.2
      · subst hn; subst hi
        rw [if_pos rfl, if_pos rfl]
        simp
      · subst hn
        rw [if_pos rfl, if_neg hi]
        constructor
        · intro hx
          exact absurd (Option.some.inj hx).symm hi
        · intro hx
          have := (hs p.1 i).mpr hx
          rw [hfn] at this
          exact Option.noConfusion this
      · subst hi
        rw [if_neg hn, if_pos rfl]
        constructor
        · intro hx
          have := (hs n p.2).mp hx
          rw [hfi] at this
          exact Option.noConfusion this
        · intro hx
          exact absurd (Option.some.inj hx).symm hn
      · rw [if_neg hn, if_neg hi]
        exact hs n i
    refine ih (registerRoom d p.1 p.2) hsync2 ?_ hn1.2 hn2.2
    intro q hq
    have hq1 : q.1 ≠ p.1 := by
      intro he
      apply hn1.1
      rw [← he]
      exact List.mem_map_of_mem Prod.fst hq
    have hq2 : q.2 ≠ p.2 := by
      intro he
      apply hn2.1
      rw [← he]
      exact List.mem_map_of_mem Prod.snd hq
    obtain ⟨hqn, hqi⟩ := hf q (List.mem_cons_of_mem p hq)
    constructor
    · show (if q.1 = p.1 then some p.2 else d.nameToId q.1) = none
      rw [if_neg hq1]
      exact hqn
    · show (if q.2 = p.2 then some p.1 else d.idToName q.2) = none
      rw [if_neg hq2]
      exact hqi

/-- Counterexample to claim C1 as stated: after `register_room("A", "1")`
followed by `register_room("B", "1")` the pair `("A", "1")` is still present
in `_name_to_id`, but `_id_to_name["1"]` now names `"B"`, so the entry is not
mirrored and the two maps are out of sync. -/
theorem roomMapper_sync_counterexample_c1 :
    (registerRoom (registerRoom emptyDirectory "A" "1") "B" "1").nameToId "A"
      = some "1"
    ∧ ¬ inSync (registerRoom (registerRoom emptyDirectory "A" "1") "B" "1") := by
  constructor
  · decide
  · intro h
    have h2 := (h "A" "1").mp (by decide)
    simp [registerRoom, updateMap, emptyDirectory] at h2

/-- Claim C1 (amended): immediately after `register_room(name, id)` or
`set_im_id(name, id)` the pair is present in both maps and both lookups
return it, from any prior state; and after any sequence of registering calls
in which no name and no id is reused, the two maps remain in sync (each entry
of one map is mirrored in the other).  A later registration that reuses a
name or an id overwrites only one direction and can leave a stale unmirrored
entry, so the unrestricted sequence version of the claim fails (see the
counterexample). -/
theorem roomMapper_registration_c1 :
    (∀ (d : Directory) (n i : String),
        (registerRoom d n i).nameToId n = some i
        ∧ (registerRoom d n i).idToName i = some n
        ∧ getRoomId (registerRoom d n i) n = some i
        ∧ getRoomName (registerRoom d n i) i = some n)
    ∧ (∀ (d : Directory) (u s : String),
        (setImId d u s).nameToId u = some s
        ∧ (setImId d u s).idToName s = some u
        ∧ getRoomId (setImId d u s) u = some s
        ∧ getRoomName (setImId d u s) s = some u)
    ∧ (∀ (l : List (String × String)) (d : Directory),
        inSync d →
        (∀ p ∈ l, d.nameToId p.1 = none ∧ d.idToName p.2 = none) →
        (l.map Prod.fst).Nodup → (l.map Prod.snd).Nodup →
        inSync (applyRegs d l)) := by
  refine ⟨?_, ?_, ?_⟩
  · intro d n i
    refine ⟨by simp [registerRoom, updateMap], by simp [registerRoom, updateMap],
      ?_, by simp [registerRoom, getRoomName, updateMap]⟩
    simp [getRoomId, registerRoom, updateMap]
  · intro d u s
    refine ⟨by simp [setImId, updateMap], by simp [setImId, updateMap],
      ?_, by simp [setImId, getRoomName, updateMap]⟩
    simp [getRoomId, setImId, updateMap]
  · exact fun l d a b c e => applyRegs_inSync l d a b c e

/-- Witness for C1 (amended): a concrete two-element registration sequence
with distinct names and ids, starting from the empty mapper state, ends in
sync. -/
theorem roomMapper_registration_c1_witness :
    inSync (applyRegs emptyDirectory [("A", "1"), ("B", "2")]) :=
  roomMapper_registration_c1.2.2 [("A", "1"), ("B", "2")] emptyDirectory
    (fun n i => by simp [emptyDirectory])
    (fun p _ => ⟨rfl, rfl⟩)
    (by decide) (by decide)

/-- Helper for C6: the search loop rejects every room list none of whose
rooms passes the exact-name test. -/
theorem searchLoop_no_match (d : Directory) (q : String) :
    ∀ l : List V3RoomSearchRoom, (∀ r ∈ l, roomMatches r q = false) →
      searchLoop d q l = (none, d) := by
  intro l
  induction l with
  | nil => intro _; rfl
  | cons room rest ih =>
    intro h
    have hr := h room (List.mem_cons_self room rest)
    have hrest := fun r hm => h r (List.mem_cons_of_mem room hm)
    obtain ⟨ra, ri⟩ := room
    cases ra with
    | none =>
      cases ri with
      | none => simpa [searchLoop] using ih hrest
      | some info => simpa [searchLoop] using ih hrest
    | some attrs =>
      cases ri with
      | none => simpa [searchLoop] using ih hrest
      | some info =>
        have hb : (attrs.name == some q) = false := by
          simpa [roomMatches] using hr
        simpa [searchLoop, hb] using ih hrest

/-- Helper for C6: a run of rejected rooms at the front of the list is
skipped by the search loop. -/
theorem searchLoop_skip (d : Directory) (q : String) :
    ∀ (pre l : List V3RoomSearchRoom), (∀ r ∈ pre, roomMatches r q = false) →
      searchLoop d q (pre ++ l) = searchLoop d q l := by
  intro pre
  induction pre with
  | nil => intro l _; rfl
  | cons room rest ih =>
    intro l h
    have hr := h room (List.mem_cons_self room rest)
    have hrest := fun r hm => h r (List.mem_cons_of_mem room hm)
    obtain ⟨ra, ri⟩ := room
    cases ra with
    | none =>
      cases ri with
      | none => simpa [searchLoop] using ih l hrest
      | some info => simpa [searchLoop] using ih l hrest
    | some attrs =>
      cases ri with
      | none => simpa [searchLoop] using ih l hrest
      | some info =>
        have hb : (attrs.name == some q) = false := by
          simpa [roomMatches] using hr
        simpa [searchLoop, hb] using ih l hrest

/-- Helper for C6: the branch on the possibly-empty room list collapses, as
the loop on the empty list already returns the miss. -/
theorem searchLoop_isEmpty_collapse (d : Directory) (q : String)
    (l : List V3RoomSearchRoom) :
    (if l.isEmpty then ((none : Option String), d) else searchLoop d q l)
      = searchLoop d q l := by
  cases l with
  | nil => simp [searchLoop]
  | cons a t => simp

/-- Claim C6: on a cache miss, `get_room_id_async` accepts a search result
only on exact name equality — a list in which no room carries exactly the
queried name (in particular one whose names merely extend the query) yields
not-found with the cache untouched — and the first exactly-matching room has
its pair registered into both cache directions and its id returned. -/
theorem getRoomIdAsync_exact_match_c6 (d : Directory) (name : String)
    (rs : List V3RoomSearchRoom)
    (hmiss : pyTruthyOptStr (getRoomId d name) = false) :
    ((∀ r ∈ rs, roomMatches r name = false) →
      getRoomIdAsync d name (some (Except.ok (some ⟨some rs⟩))) = (none, d))
    ∧ (∀ (pre rest : List V3RoomSearchRoom) (attrs : V3RoomAttributes)
        (info : V3RoomSystemInfo),
        rs = pre ++ (⟨some attrs, some info⟩ : V3RoomSearchRoom) :: rest →
        (∀ r ∈ pre, roomMatches r name = false) →
        attrs.name = some name →
        getRoomIdAsync d name (some (Except.ok (some ⟨some rs⟩)))
          = (some info.id, registerRoom d name info.id)
        ∧ (registerRoom d name info.id).nameToId name = some info.id
        ∧ (registerRoom d name info.id).idToName info.id = some name) := by
  constructor
  · intro hall
    simp only [getRoomIdAsync, hmiss]
    rw [if_neg (by simp)]
    simp only [searchLoop_isEmpty_collapse]
    exact searchLoop_no_match d name rs hall
  · intro pre rest attrs info hrs hpre hname
    refine ⟨?_, by simp [registerRoom, updateMap], by simp [registerRoom, updateMap]⟩
    subst hrs
    simp only [getRoomIdAsync, hmiss]
    rw [if_neg (by simp)]
    simp only [searchLoop_isEmpty_collapse]
    rw [searchLoop_skip d name pre _ hpre]
    simp [searchLoop, hname]

/-- Witness for C6: searching for `"Foo Bar"` against a result whose only
room is named `"Foo Bar Extended"` resolves to not-found with the cache
unchanged, while a result carrying an exact `"Foo Bar"` room registers and
returns its id. -/
theorem getRoomIdAsync_exact_match_c6_witness :
    getRoomIdAsync emptyDirectory "Foo Bar"
      (some (Except.ok (some ⟨some [⟨some ⟨some "Foo Bar Extended"⟩, some ⟨"x"⟩⟩]⟩)))
      = (none, emptyDirectory)
    ∧ getRoomIdAsync emptyDirectory "Foo Bar"
      (some (Except.ok (some ⟨some [⟨some ⟨some "Foo Bar"⟩, some ⟨"y"⟩⟩]⟩)))
      = (some "y", registerRoom emptyDirectory "Foo Bar" "y") :=
  ⟨(getRoomIdAsync_exact_match_c6 emptyDirectory "Foo Bar"
      [⟨some ⟨some "Foo Bar Extended"⟩, some ⟨"x"⟩⟩] (by decide)).1 (by decide),
   ((getRoomIdAsync_exact_match_c6 emptyDirectory "Foo Bar"
      [⟨some ⟨some "Foo Bar"⟩, some ⟨"y"⟩⟩] (by decide)).2 [] []
      ⟨some "Foo Bar"⟩ ⟨"y"⟩ rfl (by simp) rfl).1⟩

/-- Helper for C2: registering the same IM stream under two identifiers (the
display name, then the user id) makes both resolve to the stream. -/
theorem getRoomId_after_setImId_twice (d : Directory) (a b sid : String) :
    getRoomId (setImId (setImId d a sid) b sid) a = some sid
    ∧ getRoomId (setImId (setImId d a sid) b sid) b = some sid := by
  constructor
  · by_cases hab : a = b
    · subst hab
      simp [getRoomId, setImId, updateMap]
    · simp [getRoomId, setImId, updateMap, hab]
  · simp [getRoomId, setImId, updateMap]

/-- Claim C2: an inbound IM event (message-sent or form-submission) that
reaches the IM branch registers both the author display name and the author
user id as aliases for the stream — afterwards `get_room_id` resolves either
to the stream id — and the produced message has room equal to the literal
`"IM"`. -/
theorem handlers_im_registration_c2 :
    (∀ (ini : V4Initiator) (u : V4User) (ev : V4MessageSent) (m : V4Message)
        (st : V4Stream) (roomIds : List String) (d : Directory) (ms : List String),
        ini.user = some u → ev.message = some m → m.stream = some st →
        st.streamType = "IM" → (roomIds = [] ∨ st.streamId ∈ roomIds) →
        getUserMentions m.data = Except.ok ms →
        ∃ out d2,
          handleMessageSent (some ini) ev roomIds d = Except.ok (some out, d2)
          ∧ out.room = "IM"
          ∧ getRoomId d2 u.displayName = some st.streamId
          ∧ getRoomId d2 (toString u.userId) = some st.streamId)
    ∧ (∀ (ini : V4Initiator) (u : V4User) (ev2 : V4SymphonyElementsAction)
        (st2 : V4Stream) (roomIds : List String) (d : Directory),
        ini.user = some u → ev2.stream = some st2 →
        st2.streamType = "IM" → (roomIds = [] ∨ st2.streamId ∈ roomIds) →
        ∃ out d2,
          handleElementsAction (some ini) ev2 roomIds d = (some out, d2)
          ∧ out.room = "IM"
          ∧ getRoomId d2 u.displayName = some st2.streamId
          ∧ getRoomId d2 (toString u.userId) = some st2.streamId) := by
  constructor
  · intro ini u ev m st roomIds d ms hu hm hms hty hfil hment
    have hnf : ¬(roomIds ≠ [] ∧ st.streamId ∉ roomIds) := by
      rcases hfil with h | h
      · simp [h]
      · intro hc
        exact hc.2 h
    simp only [handleMessageSent, hm, hms, hu, hment]
    rw [if_neg hnf, if_neg (by rw [hty]; decide), if_pos hty]
    exact ⟨_, _, rfl, rfl,
      (getRoomId_after_setImId_twice d u.displayName (toString u.userId) st.streamId).1,
      (getRoomId_after_setImId_twice d u.displayName (toString u.userId) st.streamId).2⟩
  · intro ini u ev2 st2 roomIds d hu hms hty hfil
    have hnf : ¬(roomIds ≠ [] ∧ st2.streamId ∉ roomIds) := by
      rcases hfil with h | h
      · simp [h]
      · intro hc
        exact hc.2 h
    simp only [handleElementsAction, hms, hu]
    rw [if_neg hnf, if_neg (by rw [hty]; decide), if_pos hty]
    exact ⟨_, _, rfl, rfl,
      (getRoomId_after_setImId_twice d u.displayName (toString u.userId) st2.streamId).1,
      (getRoomId_after_setImId_twice d u.displayName (toString u.userId) st2.streamId).2⟩

/-- Witness for C2: the IM event from author `("Alice", 42)` on stream
`"s1"`, with no allow-list and an empty cache. -/
theorem handlers_im_registration_c2_witness :
    ∃ out d2,
      handleMessageSent (some ⟨some ⟨"Alice", "alice@example.com", 42⟩⟩)
          ⟨some ⟨some ⟨"s1", "IM"⟩, some (PyJson.obj []), some "hi"⟩⟩ [] emptyDirectory
        = Except.ok (some out, d2)
      ∧ out.room = "IM"
      ∧ getRoomId d2 "Alice" = some "s1"
      ∧ getRoomId d2 (toString (42 : Nat)) = some "s1" :=
  handlers_im_registration_c2.1 ⟨some ⟨"Alice", "alice@example.com", 42⟩⟩
    ⟨"Alice", "alice@example.com", 42⟩
    ⟨some ⟨some ⟨"s1", "IM"⟩, some (PyJson.obj []), some "hi"⟩⟩
    ⟨some ⟨"s1", "IM"⟩, some (PyJson.obj []), some "hi"⟩ ⟨"s1", "IM"⟩
    [] emptyDirectory [] rfl rfl rfl rfl (Or.inl rfl) rfl

/-- Claim C3: a ROOM event whose stream id has no cached name still yields a
message whose room is the raw stream id with the directory untouched; an
event of any stream type other than ROOM and IM also gets the raw stream id
as room, with no registration.  Both translation paths are covered. -/
theorem handlers_room_fallback_c3 :
    (∀ (ini : Option V4Initiator) (ev : V4MessageSent) (m : V4Message)
        (st : V4Stream) (roomIds : List String) (d : Directory) (ms : List String),
        ev.message = some m → m.stream = some st →
        (roomIds = [] ∨ st.streamId ∈ roomIds) →
        getUserMentions m.data = Except.ok ms →
        ((st.streamType = "ROOM" → getRoomName d st.streamId = none →
            ∃ out, handleMessageSent ini ev roomIds d = Except.ok (some out, d)
              ∧ out.room = st.streamId)
          ∧ (st.streamType ≠ "ROOM" → st.streamType ≠ "IM" →
            ∃ out, handleMessageSent ini ev roomIds d = Except.ok (some out, d)
              ∧ out.room = st.streamId)))
    ∧ (∀ (ini : Option V4Initiator) (ev2 : V4SymphonyElementsAction)
        (st2 : V4Stream) (roomIds : List String) (d : Directory),
        ev2.stream = some st2 → (roomIds = [] ∨ st2.streamId ∈ roomIds) →
        ((st2.streamType = "ROOM" → getRoomName d st2.streamId = none →
            ∃ out, handleElementsAction ini ev2 roomIds d = (some out, d)
              ∧ out.room = st2.streamId)
          ∧ (st2.streamType ≠ "ROOM" → st2.streamType ≠ "IM" →
            ∃ out, handleElementsAction ini ev2 roomIds d = (some out, d)
              ∧ out.room = st2.streamId))) := by
  constructor
  · intro ini ev m st roomIds d ms hm hms hfil hment
    have hnf : ¬(roomIds ≠ [] ∧ st.streamId ∉ roomIds) := by
      rcases hfil with h | h
      · simp [h]
      · intro hc
        exact hc.2 h
    constructor
    · intro hR hnone
      simp only [handleMessageSent, hm, hms, hment, hnone]
      rw [if_neg hnf, if_pos hR]
      exact ⟨_, rfl, rfl⟩
    · intro hR hI
      simp only [handleMessageSent, hm, hms, hment]
      rw [if_neg hnf, if_neg hR, if_neg hI]
      exact ⟨_, rfl, rfl⟩
  · intro ini ev2 st2 roomIds d hms hfil
    have hnf : ¬(roomIds ≠ [] ∧ st2.streamId ∉ roomIds) := by
      rcases hfil with h | h
      · simp [h]
      · intro hc
        exact hc.2 h
    constructor
    · intro hR hnone
      simp only [handleElementsAction, hms, hnone]
      rw [if_neg hnf, if_pos hR]
      exact ⟨_, rfl, rfl⟩
    · intro hR hI
      simp only [handleElementsAction, hms]
      rw [if_neg hnf, if_neg hR, if_neg hI]
      exact ⟨_, rfl, rfl⟩

/-- Witness for C3: a ROOM event on the uncached stream `"sRoom"` and a
`"POST"`-type event on stream `"sPost"`, both with no allow-list and an
empty cache. -/
theorem handlers_room_fallback_c3_witness :
    (∃ out, handleMessageSent none
        ⟨some ⟨some ⟨"sRoom", "ROOM"⟩, some (PyJson.obj []), some "m"⟩⟩ [] emptyDirectory
      = Except.ok (some out, emptyDirectory) ∧ out.room = "sRoom")
    ∧ (∃ out, handleElementsAction none ⟨some ⟨"sPost", "POST"⟩, none, none⟩ [] emptyDirectory
      = (some out, emptyDirectory) ∧ out.room = "sPost") :=
  ⟨(handlers_room_fallback_c3.1 none
      ⟨some ⟨some ⟨"sRoom", "ROOM"⟩, some (PyJson.obj []), some "m"⟩⟩
      ⟨some ⟨"sRoom", "ROOM"⟩, some (PyJson.obj []), some "m"⟩ ⟨"sRoom", "ROOM"⟩
      [] emptyDirectory [] rfl rfl (Or.inl rfl) rfl).1 rfl rfl,
   (handlers_room_fallback_c3.2 none ⟨some ⟨"sPost", "POST"⟩, none, none⟩
      ⟨"sPost", "POST"⟩ [] emptyDirectory rfl (Or.inl rfl)).2
      (by decide) (by decide)⟩

/-- Claim C8: with a non-empty allow-set that does not contain the event
stream, neither translation path produces a message; with an empty allow-set
every well-formed event passes the filter and a message is produced. -/
theorem handlers_allowlist_filter_c8 :
    (∀ (ini : Option V4Initiator) (ev : V4MessageSent) (m : V4Message)
        (st : V4Stream) (roomIds : List String) (d : Directory),
        ev.message = some m → m.stream = some st → roomIds ≠ [] →
        st.streamId ∉ roomIds →
        handleMessageSent ini ev roomIds d = Except.ok (none, d))
    ∧ (∀ (ini : Option V4Initiator) (ev2 : V4SymphonyElementsAction)
        (st2 : V4Stream) (roomIds : List String) (d : Directory),
        ev2.stream = some st2 → roomIds ≠ [] → st2.streamId ∉ roomIds →
        handleElementsAction ini ev2 roomIds d = (none, d))
    ∧ (∀ (ini : Option V4Initiator) (ev : V4MessageSent) (m : V4Message)
        (st : V4Stream) (d : Directory) (ms : List String),
        ev.message = some m → m.stream = some st →
        getUserMentions m.data = Except.ok ms →
        ∃ out d2, handleMessageSent ini ev [] d = Except.ok (some out, d2))
    ∧ (∀ (ini : Option V4Initiator) (ev2 : V4SymphonyElementsAction)
        (st2 : V4Stream) (d : Directory),
        ev2.stream = some st2 →
        ∃ out d2, handleElementsAction ini ev2 [] d = (some out, d2)) := by
  refine ⟨?_, ?_, ?_, ?_⟩
  · intro ini ev m st roomIds d hm hms hne hni
    simp only [handleMessageSent, hm, hms]
    rw [if_pos ⟨hne, hni⟩]
  · intro ini ev2 st2 roomIds d hms hne hni
    simp only [handleElementsAction, hms]
    rw [if_pos ⟨hne, hni⟩]
  · intro ini ev m st d ms hm hms hment
    simp only [handleMessageSent, hm, hms, hment]
    rw [if_neg (by simp)]
    by_cases hR : st.streamType = "ROOM"
    · rw [if_pos hR]
      exact ⟨_, _, rfl⟩
    · rw [if_neg hR]
      by_cases hI : st.streamType = "IM"
      · rw [if_pos hI]
        exact ⟨_, _, rfl⟩
      · rw [if_neg hI]
        exact ⟨_, _, rfl⟩
  · intro ini ev2 st2 d hms
    simp only [handleElementsAction, hms]
    rw [if_neg (by simp)]
    by_cases hR : st2.streamType = "ROOM"
    · rw [if_pos hR]
      exact ⟨_, _, rfl⟩
    · rw [if_neg hR]
      by_cases hI : st2.streamType = "IM"
      · rw [if_pos hI]
        exact ⟨_, _, rfl⟩
      · rw [if_neg hI]
        exact ⟨_, _, rfl⟩

/-- Witness for C8: stream `"other"` against allow-set `["allowed"]` is
dropped on both paths; the same events pass with the empty allow-set. -/
theorem handlers_allowlist_filter_c8_witness :
    handleMessageSent none
        ⟨some ⟨some ⟨"other", "ROOM"⟩, some (PyJson.obj []), some "m"⟩⟩
        ["allowed"] emptyDirectory
      = Except.ok (none, emptyDirectory)
    ∧ handleElementsAction none ⟨some ⟨"other", "ROOM"⟩, none, none⟩
        ["allowed"] emptyDirectory = (none, emptyDirectory)
    ∧ (∃ out d2, handleMessageSent none
        ⟨some ⟨some ⟨"other", "ROOM"⟩, some (PyJson.obj []), some "m"⟩⟩ [] emptyDirectory
      = Except.ok (some out, d2))
    ∧ (∃ out d2, handleElementsAction none ⟨some ⟨"other", "ROOM"⟩, none, none⟩
        [] emptyDirectory = (some out, d2)) :=
  ⟨handlers_allowlist_filter_c8.1 none
      ⟨some ⟨some ⟨"other", "ROOM"⟩, some (PyJson.obj []), some "m"⟩⟩
      ⟨some ⟨"other", "ROOM"⟩, some (PyJson.obj []), some "m"⟩ ⟨"other", "ROOM"⟩
      ["allowed"] emptyDirectory rfl rfl (by decide) (by decide),
   handlers_allowlist_filter_c8.2.1 none ⟨some ⟨"other", "ROOM"⟩, none, none⟩
      ⟨"other", "ROOM"⟩ ["allowed"] emptyDirectory rfl (by decide) (by decide),
   handlers_allowlist_filter_c8.2.2.1 none
      ⟨some ⟨some ⟨"other", "ROOM"⟩, some (PyJson.obj []), some "m"⟩⟩
      ⟨some ⟨"other", "ROOM"⟩, some (PyJson.obj []), some "m"⟩ ⟨"other", "ROOM"⟩
      emptyDirectory [] rfl rfl rfl,
   handlers_allowlist_filter_c8.2.2.2 none ⟨some ⟨"other", "ROOM"⟩, none, none⟩
      ⟨"other", "ROOM"⟩ emptyDirectory rfl⟩

/-- Claim C10: a message-sent event lacking the message object, or lacking
the stream object inside the message, and a form-submission event lacking
its stream object, are silently dropped — no message is produced and the
directory is unchanged. -/
theorem handlers_missing_payload_c10 :
    (∀ (ini : Option V4Initiator) (ev : V4MessageSent) (roomIds : List String)
        (d : Directory),
        ev.message = none →
        handleMessageSent ini ev roomIds d = Except.ok (none, d))
    ∧ (∀ (ini : Option V4Initiator) (ev : V4MessageSent) (m : V4Message)
        (roomIds : List String) (d : Directory),
        ev.message = some m → m.stream = none →
        handleMessageSent ini ev roomIds d = Except.ok (none, d))
    ∧ (∀ (ini : Option V4Initiator) (ev2 : V4SymphonyElementsAction)
        (roomIds : List String) (d : Directory),
        ev2.stream = none → handleElementsAction ini ev2 roomIds d = (none, d)) := by
  refine ⟨?_, ?_, ?_⟩
  · intro ini ev roomIds d h
    simp [handleMessageSent, h]
  · intro ini ev m roomIds d h1 h2
    simp [handleMessageSent, h1, h2]
  · intro ini ev2 roomIds d h
    simp [handleElementsAction, h]

/-- Witness for C10 on concrete degenerate events. -/
theorem handlers_missing_payload_c10_witness :
    handleMessageSent none ⟨none⟩ [] emptyDirectory = Except.ok (none, emptyDirectory)
    ∧ handleMessageSent none ⟨some ⟨none, some (PyJson.obj []), some "x"⟩⟩ []
        emptyDirectory = Except.ok (none, emptyDirectory)
    ∧ handleElementsAction none ⟨none, none, none⟩ [] emptyDirectory
        = (none, emptyDirectory) :=
  ⟨handlers_missing_payload_c10.1 none ⟨none⟩ [] emptyDirectory rfl,
   handlers_missing_payload_c10.2.1 none ⟨some ⟨none, some (PyJson.obj []), some "x"⟩⟩
      ⟨none, some (PyJson.obj []), some "x"⟩ [] emptyDirectory rfl rfl,
   handlers_missing_payload_c10.2.2 none ⟨none, none, none⟩ [] emptyDirectory rfl⟩
